import Mathlib

/-!
Verification development for the GDS Budgetarian storefront's order-lifecycle
and analytics logic.

The embedding below translates, into Lean, the two components the testable
properties concern:

* the staff dashboard's `updateOrderStatus` handler (status transition:
  one Firestore write of `{status, updatedAt}`, then a `setOrders` map over
  the in-memory list; on a failed write the catch block reports the error and
  leaves the list untouched), and
* the admin analytics component (`toDate` date normalization, the
  month/year filter effect, the cancelled-order exclusion, the aggregate
  stats, recent orders, top products, and the export summary's guarded
  average-order-value cell).

JavaScript numbers holding money amounts are modelled as rationals,
item quantities as naturals, and point-in-time values as integer
milliseconds since the epoch.  Calendar month/year extraction from a
millisecond timestamp is implemented with the standard civil-from-days
algorithm (at UTC).
-/

namespace GDS

/-- The heterogeneous shapes an order's stored `createdAt` may take:
absent/falsy, a concrete `Date`, a Firestore timestamp object with a
`seconds` field, or a string/number that either parses to a valid date
or to `NaN`. -/
inductive RawDate where
  | null : RawDate
  | jsDate (t : Int) : RawDate
  | tsObj (seconds : Int) : RawDate
  | strVal (t : Int) : RawDate
  | strInvalid : RawDate
  deriving DecidableEq

/-- One order line item: `{productId, quantity, price}`. -/
structure OrderItem where
  productId : String
  quantity : Nat
  price : Rat
  deriving DecidableEq

/-- Shipping address fields, each possibly absent. -/
structure ShippingAddress where
  name : Option String
  phone : Option String
  street : Option String
  city : Option String
  state : Option String
  postalCode : Option String
  deriving DecidableEq

/-- An order document as the views read it.  `status` and `total` may be
absent in the stored data (the code guards both reads); `updatedAt` is the
normalized last-update instant in milliseconds. -/
structure Order where
  id : String
  items : Option (List OrderItem)
  total : Option Rat
  status : Option String
  shippingAddress : Option ShippingAddress
  createdAt : RawDate
  updatedAt : Int
  deriving DecidableEq

/-- A product document (the fields the analytics view uses). -/
structure Product where
  id : String
  name : String
  price : Rat
  deriving DecidableEq

/-- A user document (the fields the customer count uses). -/
structure User where
  id : String
  role : Option String
  deriving DecidableEq

/-! ### Date normalization -/

/-- Whole days since the epoch for a millisecond instant (floored, as the
`Date` UTC accessors do). -/
def daysFromMillis (t : Int) : Int := Int.fdiv t 86400000

/-- Civil calendar date from a day count: returns `(year, month0)` with
`month0` in `0..11`, per the standard days-to-civil algorithm. -/
def civilOfDays (z0 : Int) : Int × Int :=
  let z := z0 + 719468
  let era := (if 0 ≤ z then z else z - 146096) / 146097
  let doe := z - era * 146097
  let yoe := (doe - doe / 1460 + doe / 36524 - doe / 146096) / 365
  let y := yoe + era * 400
  let doy := doe - (365 * yoe + yoe / 4 - yoe / 100)
  let mp := (5 * doy + 2) / 153
  let m := mp + (if mp < 10 then 3 else -9)
  (y + (if m ≤ 2 then 1 else 0), m - 1)

/-- Models `Date.prototype.getMonth`: zero-based month of a millisecond instant. -/
def getMonth (t : Int) : Int := (civilOfDays (daysFromMillis t)).2

/-- Models `Date.prototype.getFullYear`: calendar year of a millisecond instant. -/
def getFullYear (t : Int) : Int := (civilOfDays (daysFromMillis t)).1

/-- Models `Date.prototype.getTime`: the underlying millisecond value. -/
def getTime (t : Int) : Int := t

/-- The analytics helper `toDate`: converts a raw `createdAt`
(`Date | Timestamp | string | undefined`) to a valid instant or `null`. -/
def toDate : RawDate → Option Int
  | RawDate.null => none
  | RawDate.jsDate t => some t
  | RawDate.tsObj s => some (s * 1000)
  | RawDate.strVal t => some t
  | RawDate.strInvalid => none

/-! ### Month/year filtering and cancelled-order exclusion -/

/-- A dropdown selector: the sentinel `"all"` or a specific numeric value. -/
inductive MYFilter where
  | all : MYFilter
  | sel (n : Int) : MYFilter
  deriving DecidableEq

/-- The body of the filter predicate used by both the stats-recompute effect
and `exportToExcel`: normalize the date, drop the order if it is invalid,
otherwise require each active selector to match. -/
def matchesFilter (fm fy : MYFilter) (o : Order) : Bool :=
  match toDate o.createdAt with
  | none => false
  | some t =>
    (match fm with
     | MYFilter.all => true
     | MYFilter.sel n => getMonth t == n) &&
    (match fy with
     | MYFilter.all => true
     | MYFilter.sel n => getFullYear t == n)

/-- The month/year filter step: when either selector is active, keep the
matching orders; when both are `"all"`, the list is passed through as is. -/
def filterMY (fm fy : MYFilter) (orders : List Order) : List Order :=
  if fm ≠ MYFilter.all ∨ fy ≠ MYFilter.all then
    orders.filter (matchesFilter fm fy)
  else orders

/-- The exclusion step `orders.filter((o) => o.status !== "cancelled")`. -/
def nonCancelled (orders : List Order) : List Order :=
  orders.filter (fun o => o.status != some "cancelled")

/-- The guarded read of an order's total (`order.total || 0`, and the
effect's `typeof o.total === "number" ? o.total : 0`). -/
def orderTotal (o : Order) : Rat := o.total.getD 0

/-- The guarded read of an order's items (`Array.isArray(order.items)`). -/
def itemsOf (o : Order) : List OrderItem := o.items.getD []

/-- The order set every revenue/count aggregate is computed over:
month/year-filtered, then cancelled orders removed. -/
def includedOrders (fm fy : MYFilter) (orders : List Order) : List Order :=
  nonCancelled (filterMY fm fy orders)

/-- Total revenue: `reduce((sum, o) => sum + total, 0)` over the included set. -/
def totalRevenueAgg (fm fy : MYFilter) (orders : List Order) : Rat :=
  (includedOrders fm fy orders).foldl (fun s o => s + orderTotal o) 0

/-- Total order count: the length of the included set. -/
def totalOrdersAgg (fm fy : MYFilter) (orders : List Order) : Nat :=
  (includedOrders fm fy orders).length

/-! ### Recent orders and top products -/

/-- The sort key of the recent-orders comparator:
`toDate(o.createdAt)?.getTime() || 0`. -/
def recentKey (o : Order) : Int := (toDate o.createdAt).getD 0

/-- Recent orders: all orders (no date or status filter) sorted descending
by normalized creation time, first 5.  The JS comparator
`(keyB) - (keyA)` orders `a` before `b` exactly when `keyB ≤ keyA`. -/
def recentOrders (orders : List Order) : List Order :=
  (orders.mergeSort (fun a b => decide (recentKey b ≤ recentKey a))).take 5

/-- The per-product accumulation of the `productSales` map: for a given
product id, the summed quantity over every line item of every
non-cancelled order referencing it. -/
def soldQty (orders : List Order) (pid : String) : Nat :=
  (nonCancelled orders).foldl
    (fun acc o =>
      acc + ((itemsOf o).filter (fun it => it.productId == pid)).foldl
        (fun a it => a + it.quantity) 0)
    0

/-- A top-products row: `{...product, totalSold}`. -/
structure TopEntry where
  product : Product
  totalSold : Nat
  deriving DecidableEq

/-- Top products: every product paired with its sold quantity, sorted
descending by `totalSold`, first 5. -/
def topProducts (orders : List Order) (products : List Product) : List TopEntry :=
  ((products.map (fun p => TopEntry.mk p (soldQty orders p.id))).mergeSort
    (fun a b => decide (b.totalSold ≤ a.totalSold))).take 5

/-! ### Full stats, the recompute effect, and `fetchAnalytics` -/

/-- Customer count: users with role `"user"`, excluding the authenticated
caller's own id when one is present. -/
def countCustomers (users : List User) (uid : Option String) : Nat :=
  (users.filter (fun u =>
    (match uid with
     | none => true
     | some c => u.id != c) && (u.role == some "user"))).length

/-- The analytics component's `stats` state. -/
structure Stats where
  totalRevenue : Rat
  totalOrders : Nat
  totalCustomers : Nat
  totalProducts : Nat
  recentOrders : List Order
  topProducts : List TopEntry
  deriving DecidableEq

/-- The initial `useState` value of `stats`. -/
def initialStats : Stats :=
  { totalRevenue := 0, totalOrders := 0, totalCustomers := 0,
    totalProducts := 0, recentOrders := [], topProducts := [] }

/-- The full stats object `fetchAnalytics` builds on success (no month/year
filter is applied on this path). -/
def computeStats (orders : List Order) (users : List User)
    (products : List Product) (uid : Option String) : Stats :=
  { totalRevenue := (nonCancelled orders).foldl (fun s o => s + orderTotal o) 0,
    totalOrders := (nonCancelled orders).length,
    totalCustomers := countCustomers users uid,
    totalProducts := products.length,
    recentOrders := recentOrders orders,
    topProducts := topProducts orders products }

/-- The filter-recompute effect: returns early when the order list is empty,
otherwise overwrites `totalRevenue` and `totalOrders` from the filtered,
non-cancelled set and keeps every other stat. -/
def recomputeStats (fm fy : MYFilter) (allOrders : List Order) (s : Stats) : Stats :=
  if allOrders.length = 0 then s
  else
    { s with
      totalRevenue := totalRevenueAgg fm fy allOrders,
      totalOrders := totalOrdersAgg fm fy allOrders }

/-- The analytics component's state relevant to `fetchAnalytics`. -/
structure AnalyticsState where
  allOrders : List Order
  stats : Stats
  filterMonth : MYFilter
  filterYear : MYFilter
  deriving DecidableEq

/-- The state after `setAllOrders(orders)` commits: the recompute effect
(keyed on `allOrders`) runs before the next await resolves. -/
def applyOrdersSnapshot (st : AnalyticsState) (orders : List Order) : AnalyticsState :=
  { st with
    allOrders := orders,
    stats := recomputeStats st.filterMonth st.filterYear orders st.stats }

/-- The handler `fetchAnalytics`: the three awaited collection reads in order
(orders, users, products), each of which may reject.  A rejection anywhere
jumps to the catch block, which only logs (second component `true`).
The orders snapshot is stored as soon as the first read succeeds. -/
def fetchAnalytics (st : AnalyticsState) (ordersRes : Except Unit (List Order))
    (usersRes : Except Unit (List User)) (productsRes : Except Unit (List Product))
    (uid : Option String) : AnalyticsState × Bool :=
  match ordersRes with
  | Except.error _ => (st, true)
  | Except.ok orders =>
    let st1 := applyOrdersSnapshot st orders
    match usersRes with
    | Except.error _ => (st1, true)
    | Except.ok users =>
      match productsRes with
      | Except.error _ => (st1, true)
      | Except.ok products =>
        ({ st1 with stats := computeStats orders users products uid }, false)

/-! ### Export summary: average order value -/

/-- A summary-sheet cell: either a fixed string literal or a computed
currency amount. -/
inductive SummaryCell where
  | lit (s : String) : SummaryCell
  | money (amount : Rat) : SummaryCell
  deriving DecidableEq

/-- The "Average Order Value" cell:
`stats.totalOrders > 0 ? ₱(revenue / orders) : "₱0.00"`. -/
def avgOrderValueCell (s : Stats) : SummaryCell :=
  if 0 < s.totalOrders then SummaryCell.money (s.totalRevenue / (s.totalOrders : Rat))
  else SummaryCell.lit "₱0.00"

/-! ### Status transition (staff dashboard) -/

/-- The single Firestore write `updateDoc(orderRef, {status, updatedAt})`
issued by a status transition: exactly the target id, the status field and
the fresh update-timestamp field. -/
structure OrderWrite where
  targetId : String
  status : String
  updatedAt : Int
  deriving DecidableEq

/-- The handler `updateOrderStatus(orderId, newStatus)`: one `updateDoc` write of
`{status, updatedAt: Timestamp.now()}`; on success, `setOrders` maps the
list, replacing only the matching order's status and `updatedAt` with
`new Date()`; on failure, the catch block reports the error and the list
is untouched.  `tsNow`/`dateNow` are the two "now" readings; `writeOk`
is whether the awaited write resolves.  Returns the new in-memory list,
the list of writes issued, and whether a failure was reported. -/
def updateOrderStatus (orders : List Order) (orderId newStatus : String)
    (tsNow dateNow : Int) (writeOk : Bool) :
    List Order × List OrderWrite × Bool :=
  let write : OrderWrite := { targetId := orderId, status := newStatus, updatedAt := tsNow }
  if writeOk then
    (orders.map (fun o =>
      if o.id = orderId then
        { o with status := some newStatus, updatedAt := dateNow }
      else o),
     [write], false)
  else
    (orders, [write], true)

/-! ### Sample data used by witness instances -/

/-- A pending order with one line item, created at the epoch. -/
def ord1 : Order :=
  { id := "ord1", items := some [{ productId := "p1", quantity := 2, price := 50 }],
    total := some 100, status := some "pending", shippingAddress := none,
    createdAt := RawDate.jsDate 0, updatedAt := 5 }

/-- A second, delivered order with a later creation time. -/
def ord2 : Order :=
  { id := "ord2", items := some [{ productId := "p2", quantity := 1, price := 30 }],
    total := some 30, status := some "delivered", shippingAddress := none,
    createdAt := RawDate.jsDate 86400000, updatedAt := 7 }

/-- A cancelled order referencing product `"p1"`. -/
def ordCancelled : Order :=
  { id := "ord3", items := some [{ productId := "p1", quantity := 9, price := 50 }],
    total := some 450, status := some "cancelled", shippingAddress := none,
    createdAt := RawDate.tsObj 3600, updatedAt := 9 }

/-- A product whose id is referenced by `ord1`. -/
def prodA : Product := { id := "p1", name := "Rice", price := 50 }

/-- A product no order references. -/
def prodB : Product := { id := "zz", name := "Eggs", price := 12 }

/-- Component state carrying previously computed stats. -/
def stPrev : AnalyticsState :=
  { allOrders := [],
    stats := { initialStats with totalRevenue := 10, totalOrders := 1 },
    filterMonth := MYFilter.all, filterYear := MYFilter.all }

/-! ### Claims -/

/-- C5: with both selectors at `"all"`, the month/year filter is the
identity: the filtered order set equals the unfiltered set. -/
theorem filterMY_all_all_identity (orders : List Order) :
    filterMY MYFilter.all MYFilter.all orders = orders := by
  simp [filterMY]

/-- C3: when the hosted-store write fails during a status transition, the
failure is caught and reported, the in-memory order list is left completely
unchanged, and exactly one write was attempted (no retry). -/
theorem updateOrderStatus_failure (orders : List Order) (orderId newStatus : String)
    (tsNow dateNow : Int) :
    updateOrderStatus orders orderId newStatus tsNow dateNow false =
      (orders, [{ targetId := orderId, status := newStatus, updatedAt := tsNow }], true) :=
  rfl

/-- C2: a successful status transition leaves the in-memory record at the
targeted identifier with the new status and an update-timestamp newer than
its previous value (given the clock moved forward), and issues exactly one
write to the hosted store targeting that identifier carrying exactly the
status field and the fresh update-timestamp field. -/
theorem updateOrderStatus_success (orders : List Order) (orderId newStatus : String)
    (tsNow dateNow : Int) (i : Nat) (o : Order)
    (ho : orders[i]? = some o) (hid : o.id = orderId) (hclock : o.updatedAt < dateNow) :
    (updateOrderStatus orders orderId newStatus tsNow dateNow true).1[i]? =
      some { o with status := some newStatus, updatedAt := dateNow } ∧
    o.updatedAt < ({ o with status := some newStatus, updatedAt := dateNow } : Order).updatedAt ∧
    (updateOrderStatus orders orderId newStatus tsNow dateNow true).2.1 =
      [{ targetId := orderId, status := newStatus, updatedAt := tsNow }] ∧
    (updateOrderStatus orders orderId newStatus tsNow dateNow true).2.2 = false := by
  refine ⟨?_, hclock, rfl, rfl⟩
  show (orders.map _)[i]? = _
  rw [List.getElem?_map, ho]
  simp [hid]

/-- C2 witness: transitioning `"ord1"` to `"shipped"` at clock reading 99
(store timestamp 77) updates the in-memory record as stated. -/
theorem updateOrderStatus_success_witness :
    (updateOrderStatus [ord1] "ord1" "shipped" 77 99 true).1[0]? =
      some { ord1 with status := some "shipped", updatedAt := 99 } :=
  (updateOrderStatus_success [ord1] "ord1" "shipped" 77 99 0 ord1 rfl rfl (by decide)).1

/-- C10: a successful status transition preserves the in-memory list's
length and element order, and leaves every order whose identifier differs
from the target unchanged in all fields. -/
theorem updateOrderStatus_frame (orders : List Order) (orderId newStatus : String)
    (tsNow dateNow : Int) :
    (updateOrderStatus orders orderId newStatus tsNow dateNow true).1.length = orders.length ∧
    ∀ (i : Nat) (o : Order), orders[i]? = some o → o.id ≠ orderId →
      (updateOrderStatus orders orderId newStatus tsNow dateNow true).1[i]? = some o := by
  constructor
  · show (orders.map _).length = orders.length
    exact List.length_map orders _
  · intro i o ho hne
    show (orders.map _)[i]? = _
    rw [List.getElem?_map, ho]
    simp [hne]

/-- C10 witness: transitioning `"ord1"` leaves the unrelated `"ord2"`
record at its position, unchanged. -/
theorem updateOrderStatus_frame_witness :
    (updateOrderStatus [ord1, ord2] "ord1" "shipped" 77 99 true).1[1]? = some ord2 :=
  (updateOrderStatus_frame [ord1, ord2] "ord1" "shipped" 77 99).2 1 ord2 rfl (by decide)

/-- C8: with zero included orders, the average-order-value cell is the
zero-currency literal and no division is performed; with a positive count
it is total revenue divided by order count. -/
theorem avgOrderValueCell_spec (s : Stats) :
    (s.totalOrders = 0 → avgOrderValueCell s = SummaryCell.lit "₱0.00") ∧
    (0 < s.totalOrders →
      avgOrderValueCell s = SummaryCell.money (s.totalRevenue / (s.totalOrders : Rat))) := by
  constructor
  · intro h
    simp [avgOrderValueCell, h]
  · intro h
    simp [avgOrderValueCell, h]

/-- C8 witness: the initial (empty) stats render the literal, and a stats
object with revenue 10 over 4 orders renders the quotient. -/
theorem avgOrderValueCell_spec_witness :
    avgOrderValueCell initialStats = SummaryCell.lit "₱0.00" ∧
    avgOrderValueCell { initialStats with totalRevenue := 10, totalOrders := 4 } =
      SummaryCell.money ((10 : Rat) / ((4 : Nat) : Rat)) :=
  ⟨(avgOrderValueCell_spec initialStats).1 rfl,
   (avgOrderValueCell_spec { initialStats with totalRevenue := 10, totalOrders := 4 }).2
     (by decide)⟩

/-! ### Helper lemmas on the filters -/

theorem nonCancelled_append (l1 l2 : List Order) :
    nonCancelled (l1 ++ l2) = nonCancelled l1 ++ nonCancelled l2 := by
  simp [nonCancelled, List.filter_append]

theorem nonCancelled_cons_cancelled (o : Order) (l : List Order)
    (h : o.status = some "cancelled") :
    nonCancelled (o :: l) = nonCancelled l := by
  simp [nonCancelled, List.filter_cons, h]

theorem includedOrders_middle (fm fy : MYFilter) (pre post : List Order) (o : Order)
    (h : o.status = some "cancelled") :
    includedOrders fm fy (pre ++ o :: post) = includedOrders fm fy (pre ++ post) := by
  unfold includedOrders filterMY
  by_cases hg : fm ≠ MYFilter.all ∨ fy ≠ MYFilter.all
  · rw [if_pos hg, if_pos hg, List.filter_append, List.filter_append, List.filter_cons]
    by_cases hm : matchesFilter fm fy o = true
    · rw [if_pos hm, nonCancelled_append, nonCancelled_append,
        nonCancelled_cons_cancelled o _ h]
    · rw [if_neg hm]
  · rw [if_neg hg, if_neg hg, nonCancelled_append, nonCancelled_append,
      nonCancelled_cons_cancelled o _ h]

theorem soldQty_middle (pre post : List Order) (o : Order)
    (h : o.status = some "cancelled") (pid : String) :
    soldQty (pre ++ o :: post) pid = soldQty (pre ++ post) pid := by
  unfold soldQty
  rw [nonCancelled_append, nonCancelled_append, nonCancelled_cons_cancelled o _ h]

/-- C1: an order whose status is `"cancelled"` contributes nothing: dropping
it from the order list leaves total revenue, the order count, the
per-product sold-quantity accumulation, and the top-products list
unchanged, for every month/year filter (hence regardless of its date). -/
theorem cancelled_order_excluded (pre post : List Order) (o : Order)
    (h : o.status = some "cancelled") (fm fy : MYFilter)
    (products : List Product) (pid : String) :
    totalRevenueAgg fm fy (pre ++ o :: post) = totalRevenueAgg fm fy (pre ++ post) ∧
    totalOrdersAgg fm fy (pre ++ o :: post) = totalOrdersAgg fm fy (pre ++ post) ∧
    soldQty (pre ++ o :: post) pid = soldQty (pre ++ post) pid ∧
    topProducts (pre ++ o :: post) products = topProducts (pre ++ post) products := by
  have hmap : products.map (fun p => TopEntry.mk p (soldQty (pre ++ o :: post) p.id)) =
      products.map (fun p => TopEntry.mk p (soldQty (pre ++ post) p.id)) :=
    List.map_congr_left (fun p _ => by rw [soldQty_middle pre post o h])
  refine ⟨?_, ?_, soldQty_middle pre post o h pid, ?_⟩
  · unfold totalRevenueAgg
    rw [includedOrders_middle fm fy pre post o h]
  · unfold totalOrdersAgg
    rw [includedOrders_middle fm fy pre post o h]
  · unfold topProducts
    rw [hmap]

/-- C1 witness: the cancelled order `ordCancelled` (total 450, 9 units of
`"p1"`) contributes nothing to any aggregate alongside `ord1`. -/
theorem cancelled_order_excluded_witness :
    totalRevenueAgg MYFilter.all MYFilter.all [ordCancelled, ord1] =
      totalRevenueAgg MYFilter.all MYFilter.all [ord1] ∧
    totalOrdersAgg MYFilter.all MYFilter.all [ordCancelled, ord1] =
      totalOrdersAgg MYFilter.all MYFilter.all [ord1] ∧
    soldQty [ordCancelled, ord1] "p1" = soldQty [ord1] "p1" ∧
    topProducts [ordCancelled, ord1] [prodA, prodB] = topProducts [ord1] [prodA, prodB] :=
  cancelled_order_excluded [] [ord1] ordCancelled rfl MYFilter.all MYFilter.all
    [prodA, prodB] "p1"

/-- C4: with a specific month `M` and year `Y` selected, every order in the
filtered set has a normalized creation date with month `M` and year `Y`,
and an order whose creation date normalizes to null never appears. -/
theorem filterMY_specific_spec (orders : List Order) (M Y : Int) :
    (∀ o ∈ filterMY (MYFilter.sel M) (MYFilter.sel Y) orders,
       ∃ t, toDate o.createdAt = some t ∧ getMonth t = M ∧ getFullYear t = Y) ∧
    (∀ o : Order, toDate o.createdAt = none →
       o ∉ filterMY (MYFilter.sel M) (MYFilter.sel Y) orders) := by
  have hunf : filterMY (MYFilter.sel M) (MYFilter.sel Y) orders =
      orders.filter (matchesFilter (MYFilter.sel M) (MYFilter.sel Y)) := by
    simp [filterMY]
  have hmem : ∀ o ∈ filterMY (MYFilter.sel M) (MYFilter.sel Y) orders,
      matchesFilter (MYFilter.sel M) (MYFilter.sel Y) o = true := by
    intro o ho
    rw [hunf] at ho
    exact (List.mem_filter.mp ho).2
  constructor
  · intro o ho
    have hm := hmem o ho
    unfold matchesFilter at hm
    cases hd : toDate o.createdAt with
    | none => rw [hd] at hm; simp at hm
    | some t =>
      rw [hd] at hm
      simp only [Bool.and_eq_true, beq_iff_eq] at hm
      exact ⟨t, rfl, hm.1, hm.2⟩
  · intro o hnull ho
    have hm := hmem o ho
    unfold matchesFilter at hm
    rw [hnull] at hm
    simp at hm

/-- C4 witness: with month 0 (January) and year 1970 selected, the
epoch-dated order is in the filtered set and its normalized date has the
selected month and year. -/
theorem filterMY_specific_spec_witness :
    ∃ t, toDate ord1.createdAt = some t ∧ getMonth t = 0 ∧ getFullYear t = 1970 :=
  (filterMY_specific_spec [ord1] 0 1970).1 ord1 (by decide)

/-- C7: the recent-orders view has at most 5 elements, each element's
normalized creation time is ≥ the next one's, and it is an initial segment
of a permutation of the full, unfiltered order list (no date or status
filtering removes anything before the sort). -/
theorem recentOrders_spec (orders : List Order) :
    (recentOrders orders).length ≤ 5 ∧
    List.Pairwise (fun a b => recentKey b ≤ recentKey a) (recentOrders orders) ∧
    ∃ rest, (recentOrders orders ++ rest).Perm orders := by
  refine ⟨?_, ?_, ?_⟩
  · unfold recentOrders
    exact List.length_take_le 5 _
  · have hs := @List.sorted_mergeSort Order
      (fun a b => decide (recentKey b ≤ recentKey a))
      (fun a b c h1 h2 => by
        simp only [decide_eq_true_eq] at h1 h2 ⊢
        exact le_trans h2 h1)
      (fun a b => by
        simp only [Bool.or_eq_true, decide_eq_true_eq]
        exact le_total (recentKey b) (recentKey a))
      orders
    have hp := List.Pairwise.sublist (List.take_sublist 5 _) hs
    exact hp.imp (fun h => by simpa using h)
  · refine ⟨(orders.mergeSort (fun a b => decide (recentKey b ≤ recentKey a))).drop 5, ?_⟩
    unfold recentOrders
    rw [List.take_append_drop]
    exact List.mergeSort_perm orders _

/-! ### Helper lemmas for the top-products claim -/

theorem foldl_soldStep_const (pid : String) (l : List Order)
    (h : ∀ o ∈ l, (itemsOf o).filter (fun it => it.productId == pid) = []) :
    ∀ acc : Nat,
      l.foldl (fun acc o =>
        acc + ((itemsOf o).filter (fun it => it.productId == pid)).foldl
          (fun a it => a + it.quantity) 0) acc = acc := by
  induction l with
  | nil => intro acc; rfl
  | cons a t ih =>
    intro acc
    have ha := h a (List.mem_cons_self a t)
    simp only [List.foldl_cons, ha, List.foldl_nil, Nat.add_zero]
    exact ih (fun o ho => h o (List.mem_cons_of_mem a ho)) acc

/-- In a list sorted descending by a natural-number key, an element with
key 0 occurring among the first `n` entries bounds the number of
nonzero-key elements below `n`. -/
theorem sorted_take_zero_count {α : Type} (key : α → Nat) :
    ∀ (l : List α) (n : Nat) (e : α),
      List.Pairwise (fun a b => key b ≤ key a) l →
      e ∈ l.take n → key e = 0 →
      (l.filter (fun x => key x != 0)).length < n := by
  intro l
  induction l with
  | nil => intro n e _ hmem _; simp at hmem
  | cons a t ih =>
    intro n e hp hmem hke
    cases n with
    | zero => simp at hmem
    | succ m =>
      rw [List.take_succ_cons] at hmem
      have hpc := List.pairwise_cons.mp hp
      rcases List.mem_cons.mp hmem with he | he
      · subst he
        have hall : ∀ x ∈ t, key x = 0 := fun x hx =>
          Nat.le_zero.mp (hke ▸ hpc.1 x hx)
        have hfil : (e :: t).filter (fun x => key x != 0) = [] := by
          rw [List.filter_cons, if_neg (by simp [hke])]
          exact List.filter_eq_nil_iff.mpr (fun x hx => by simp [hall x hx])
        rw [hfil]
        exact Nat.succ_pos m
      · have hlt := ih m e hpc.2 he hke
        rw [List.filter_cons]
        by_cases hka : (key a != 0) = true
        · rw [if_pos hka]
          simpa using Nat.succ_lt_succ hlt
        · rw [if_neg hka]
          exact Nat.lt_succ_of_lt hlt

/-- C6: the top-products list has at most 5 rows and is sorted descending
by `totalSold`; each row's `totalSold` is the accumulated sold quantity of
its product over the non-cancelled orders; a product with no line-item
reference in any non-cancelled order accumulates 0; and a zero-sold row can
appear only when fewer than 5 products have nonzero sales. -/
theorem topProducts_spec (orders : List Order) (products : List Product) :
    (topProducts orders products).length ≤ 5 ∧
    List.Pairwise (fun a b => b.totalSold ≤ a.totalSold) (topProducts orders products) ∧
    (∀ e ∈ topProducts orders products, e.totalSold = soldQty orders e.product.id) ∧
    (∀ p : Product,
       (∀ o ∈ nonCancelled orders, ∀ it ∈ itemsOf o, it.productId ≠ p.id) →
       soldQty orders p.id = 0) ∧
    (∀ e ∈ topProducts orders products, e.totalSold = 0 →
       (products.filter (fun p => soldQty orders p.id != 0)).length < 5) := by
  have hsorted : List.Pairwise (fun a b : TopEntry => b.totalSold ≤ a.totalSold)
      ((products.map (fun p => TopEntry.mk p (soldQty orders p.id))).mergeSort
        (fun a b => decide (b.totalSold ≤ a.totalSold))) := by
    have hs := @List.sorted_mergeSort TopEntry
      (fun a b => decide (b.totalSold ≤ a.totalSold))
      (fun a b c h1 h2 => by
        simp only [decide_eq_true_eq] at h1 h2 ⊢
        exact le_trans h2 h1)
      (fun a b => by
        simp only [Bool.or_eq_true, decide_eq_true_eq]
        exact le_total b.totalSold a.totalSold)
      (products.map (fun p => TopEntry.mk p (soldQty orders p.id)))
    exact hs.imp (fun h => by simpa using h)
  have hperm := List.mergeSort_perm
    (products.map (fun p => TopEntry.mk p (soldQty orders p.id)))
    (fun a b => decide (b.totalSold ≤ a.totalSold))
  refine ⟨?_, ?_, ?_, ?_, ?_⟩
  · unfold topProducts
    exact List.length_take_le 5 _
  · unfold topProducts
    exact List.Pairwise.sublist (List.take_sublist 5 _) hsorted
  · intro e he
    unfold topProducts at he
    have he1 := List.mem_of_mem_take he
    have he2 := hperm.mem_iff.mp he1
    rcases List.mem_map.mp he2 with ⟨p, _, hpe⟩
    rw [← hpe]
  · intro p hno
    unfold soldQty
    apply foldl_soldStep_const
    intro o ho
    exact List.filter_eq_nil_iff.mpr (fun it hit => by simp [hno o ho it hit])
  · intro e he hke
    unfold topProducts at he
    have hlt := sorted_take_zero_count TopEntry.totalSold _ 5 e hsorted he hke
    have hlen1 : ((products.map (fun p => TopEntry.mk p (soldQty orders p.id))).filter
        (fun x => x.totalSold != 0)).length =
        (products.filter (fun p => soldQty orders p.id != 0)).length := by
      rw [List.filter_map, List.length_map]
      rfl
    calc (products.filter (fun p => soldQty orders p.id != 0)).length
        = _ := (hlen1.symm)
      _ = _ := ((hperm.filter _).length_eq.symm)
      _ < 5 := hlt

/-- C6 witness: over the single order `ord1`, the unreferenced product
`prodB` accumulates 0 sold units, and its zero-sold row in the top-products
list certifies that fewer than 5 products have nonzero sales. -/
theorem topProducts_spec_witness :
    soldQty [ord1] prodB.id = 0 ∧
    ([prodA, prodB].filter (fun p => soldQty [ord1] p.id != 0)).length < 5 :=
  ⟨(topProducts_spec [ord1] [prodA, prodB]).2.2.2.1 prodB (by decide),
   (topProducts_spec [ord1] [prodA, prodB]).2.2.2.2 ⟨prodB, 0⟩
     (by simp [topProducts, List.mergeSort, soldQty, nonCancelled, itemsOf,
           ord1, prodA, prodB])
     rfl⟩

/-- C9 (amended): a failure anywhere in the analytics fetch is logged; a
failure of the orders read leaves the whole state unchanged; a failure of
the users or products read, which happens after the orders snapshot was
stored, leaves the customer count, product count, recent orders and top
products at their last values while total revenue and order count are
recomputed from the new snapshot by the filter effect (they are untouched
only when the new snapshot is empty). -/
theorem fetchAnalytics_failure_spec (st : AnalyticsState) (orders : List Order)
    (usersRes : Except Unit (List User)) (productsRes : Except Unit (List Product))
    (users : List User) (uid : Option String) :
    fetchAnalytics st (Except.error ()) usersRes productsRes uid = (st, true) ∧
    fetchAnalytics st (Except.ok orders) (Except.error ()) productsRes uid =
      (applyOrdersSnapshot st orders, true) ∧
    fetchAnalytics st (Except.ok orders) (Except.ok users) (Except.error ()) uid =
      (applyOrdersSnapshot st orders, true) ∧
    (applyOrdersSnapshot st orders).stats.totalCustomers = st.stats.totalCustomers ∧
    (applyOrdersSnapshot st orders).stats.totalProducts = st.stats.totalProducts ∧
    (applyOrdersSnapshot st orders).stats.recentOrders = st.stats.recentOrders ∧
    (applyOrdersSnapshot st orders).stats.topProducts = st.stats.topProducts ∧
    (orders = [] → (applyOrdersSnapshot st orders).stats = st.stats) := by
  have hrec : ∀ s : Stats, (recomputeStats st.filterMonth st.filterYear orders s).totalCustomers
      = s.totalCustomers ∧
      (recomputeStats st.filterMonth st.filterYear orders s).totalProducts = s.totalProducts ∧
      (recomputeStats st.filterMonth st.filterYear orders s).recentOrders = s.recentOrders ∧
      (recomputeStats st.filterMonth st.filterYear orders s).topProducts = s.topProducts := by
    intro s
    unfold recomputeStats
    by_cases h : orders.length = 0
    · rw [if_pos h]
      exact ⟨rfl, rfl, rfl, rfl⟩
    · rw [if_neg h]
      exact ⟨rfl, rfl, rfl, rfl⟩
  refine ⟨rfl, rfl, rfl, (hrec st.stats).1, (hrec st.stats).2.1,
    (hrec st.stats).2.2.1, (hrec st.stats).2.2.2, ?_⟩
  intro h
  subst h
  show recomputeStats st.filterMonth st.filterYear [] st.stats = st.stats
  rfl

/-- C9 witness: with an empty new snapshot, a users-read failure after a
successful orders read leaves the stats object exactly as it was. -/
theorem fetchAnalytics_failure_spec_witness :
    (applyOrdersSnapshot stPrev []).stats = stPrev.stats :=
  (fetchAnalytics_failure_spec stPrev [] (Except.error ()) (Except.error ()) [] none).2.2.2.2.2.2.2
    rfl

/-- C9 counterexample to the claim as stated: starting from previously
computed stats with total revenue 10, a users-read failure that follows a
successful orders read (snapshot: one pending order of total 100) is
logged, yet the displayed total revenue has changed to 100 — the prior
stats did not all remain at their last computed values. -/
theorem fetchAnalytics_partial_update :
    (fetchAnalytics stPrev (Except.ok [ord1]) (Except.error ()) (Except.error ()) none).2
      = true ∧
    (fetchAnalytics stPrev (Except.ok [ord1]) (Except.error ()) (Except.error ())
      none).1.stats.totalRevenue = 100 ∧
    stPrev.stats.totalRevenue = 10 ∧
    (fetchAnalytics stPrev (Except.ok [ord1]) (Except.error ()) (Except.error ())
      none).1.stats.totalRevenue ≠ stPrev.stats.totalRevenue := by
  have h100 : (fetchAnalytics stPrev (Except.ok [ord1]) (Except.error ()) (Except.error ())
      none).1.stats.totalRevenue = 100 := by
    show (recomputeStats MYFilter.all MYFilter.all [ord1] stPrev.stats).totalRevenue = 100
    simp [recomputeStats, totalRevenueAgg, includedOrders, filterMY, nonCancelled,
      orderTotal, ord1, stPrev]
  refine ⟨rfl, h100, rfl, ?_⟩
  rw [h100]
  show (100 : Rat) ≠ 10
  norm_num

end GDS
